import Mathlib

/-!
Verification of the go-torc control-protocol core: the line parser state
machine (parser.go), line-buffer normalization and reply-line accessors
(auth.go message section), response status classification (message.go),
and the Controller connect/close/authentication logic (controller file).

Lines are modelled as lists of characters (the source operates on the
bytes of ASCII protocol lines; for the ASCII inputs the protocol uses,
Go byte indexing and character indexing coincide).
-/

namespace Torc

/-- A protocol line, after/before CRLF stripping, as a character list. -/
abbrev Line := List Char

/-- The CRLF line terminator. -/
def crlf : Line := ['\r', '\n']

/-- Go `strconv.Atoi`: optional sign, then only digits, value must fit in
a 64-bit signed integer; `none` on any parse error. -/
def goAtoi? (s : Line) : Option Int :=
  match s with
  | [] => none
  | c :: cs =>
    let ds := if c = '-' ∨ c = '+' then cs else c :: cs
    if ds = [] then none
    else if ds.all (fun d => d.isDigit) then
      let n : Nat := ds.foldl (fun a d => a * 10 + (d.toNat - 48)) 0
      if c = '-' then
        if n ≤ 2 ^ 63 then some (-(n : Int)) else none
      else
        if n ≤ 2 ^ 63 - 1 then some ((n : Int)) else none
    else none

/-- `isReplyLine` from parser.go: at least 5 characters and the first 3
parse as an integer. -/
def isReplyLine (l : Line) : Bool :=
  decide (5 ≤ l.length) && (goAtoi? (l.take 3)).isSome

/-- `isEndReplyLine` from parser.go: a reply line whose 4th character is a space. -/
def isEndReplyLine (l : Line) : Bool :=
  isReplyLine l && decide (l[3]? = some ' ')

/-- `isMidReplyLine` from parser.go: a reply line whose 4th character is a dash. -/
def isMidReplyLine (l : Line) : Bool :=
  isReplyLine l && decide (l[3]? = some '-')

/-- `isDataReplyLine` from parser.go: a reply line whose 4th character is a plus. -/
def isDataReplyLine (l : Line) : Bool :=
  isReplyLine l && decide (l[3]? = some '+')

/-- `isEndOfData` from parser.go: the line is exactly the single character dot. -/
def isEndOfData (l : Line) : Bool :=
  l == ['.']

/-- `ResponseBuffer` from the message type definitions: accumulated
mid-reply lines, data blocks (each a data-reply line followed by its body
lines), and the terminating end-reply line (empty until observed). -/
structure ResponseBuffer where
  midReplyLines : List Line
  dataReplyLines : List (List Line)
  endReplyLine : Line
deriving DecidableEq

/-- The fresh buffer `Parser.Reset` installs. -/
def emptyBuffer : ResponseBuffer := ⟨[], [], []⟩

/-- The parser's mutable state from parser.go: in-progress buffer, open
data-block accumulator, raw-line log, and the two state flags. -/
structure ParserState where
  buffer : ResponseBuffer
  dataReplyLine : List Line
  bufferRaw : List Line
  isReady : Bool
  isMultiLine : Bool
deriving DecidableEq

/-- `Parser.Reset`: fresh buffer, fresh raw log, READY state.  The open
data-block accumulator field is not touched by the source's reset. -/
def resetS (st : ParserState) : ParserState :=
  { st with buffer := emptyBuffer, bufferRaw := [], isReady := true, isMultiLine := false }

/-- The state after `NewParser` (zero values then `Reset`). -/
def parserInit : ParserState := ⟨emptyBuffer, [], [], true, false⟩

/-- One iteration of the `Parser.Run` loop body on an already
CRLF-stripped line: classification in READY state (emitting on an
end-reply line, resetting on classification failure), or data-block
accumulation in the multi-line state. -/
def processLine (st : ParserState) (ln : Line) : ParserState × Option ResponseBuffer :=
  if st.isReady then
    if isEndReplyLine ln then
      (resetS st, some { st.buffer with endReplyLine := ln })
    else if isMidReplyLine ln then
      ({ st with bufferRaw := st.bufferRaw ++ [ln],
                 buffer := { st.buffer with
                   midReplyLines := st.buffer.midReplyLines ++ [ln] } }, none)
    else if isDataReplyLine ln then
      ({ st with bufferRaw := st.bufferRaw ++ [ln],
                 dataReplyLine := [ln], isReady := false, isMultiLine := true }, none)
    else
      (resetS st, none)
  else if st.isMultiLine then
    if isEndOfData ln then
      ({ st with bufferRaw := st.bufferRaw ++ [ln],
                 buffer := { st.buffer with
                   dataReplyLines := st.buffer.dataReplyLines ++ [st.dataReplyLine] },
                 isReady := true, isMultiLine := false }, none)
    else
      ({ st with bufferRaw := st.bufferRaw ++ [ln],
                 dataReplyLine := st.dataReplyLine ++ [ln] }, none)
  else ({ st with bufferRaw := st.bufferRaw ++ [ln] }, none)

/-- Go `strings.HasSuffix(ln, CRLF)`. -/
def endsWithCRLF (l : Line) : Bool :=
  match l.reverse with
  | c1 :: c2 :: _ => c1 == '\n' && c2 == '\r'
  | _ => false

/-- Go `strings.TrimSuffix(ln, CRLF)`: drop the terminator when present. -/
def trimCRLF (l : Line) : Line :=
  match l.reverse with
  | c1 :: c2 :: t => if c1 = '\n' ∧ c2 = '\r' then t.reverse else l
  | _ => l

/-- The framing part of the `Parser.Run` loop: a line without a CRLF
terminator is logged and skipped; otherwise it is stripped and handed to
the classification step. -/
def rawStep (st : ParserState) (raw : Line) : ParserState × Option ResponseBuffer :=
  if endsWithCRLF raw then processLine st (trimCRLF raw) else (st, none)

/-- `Parser.Run` over a finite list of framed raw lines, collecting the
buffers posted to the output channel in order. -/
def runParser : ParserState → List Line → ParserState × List ResponseBuffer
  | st, [] => (st, [])
  | st, raw :: rest =>
      ((runParser (rawStep st raw).1 rest).1,
       (rawStep st raw).2.toList ++ (runParser (rawStep st raw).1 rest).2)

/-! ### LineBuffer normalization (auth.go message section) -/

/-- Go `strings.Replace(v, CRLF, LF, -1)`: leftmost non-overlapping
replacement of every CRLF pair by a bare LF. -/
def replCRLFtoLF : Line → Line
  | [] => []
  | [c] => [c]
  | c1 :: c2 :: rest =>
      if c1 = '\r' ∧ c2 = '\n' then '\n' :: replCRLFtoLF rest
      else c1 :: replCRLFtoLF (c2 :: rest)

/-- Go `strings.Replace(v, LF, CRLF, -1)`: every LF becomes CRLF, the
scan continuing after each replacement. -/
def replLFtoCRLF : Line → Line
  | [] => []
  | c :: rest =>
      if c = '\n' then '\r' :: '\n' :: replLFtoCRLF rest
      else c :: replLFtoCRLF rest

/-- One line of `LineBuffer.Normalize`: normalize newlines and ensure a
CRLF suffix. -/
def normalizeLine (v : Line) : Line :=
  let v1 := replLFtoCRLF (replCRLFtoLF v)
  if endsWithCRLF v1 then v1 else v1 ++ crlf

/-- `LineBuffer.Normalize`: concatenation of the normalized lines. -/
def normalizeBuffer (b : List Line) : Line :=
  (b.map normalizeLine).flatten

/-- Every LF in the line is immediately preceded by a CR (no bare newlines). -/
def noBareLF : Line → Bool
  | [] => true
  | [c] => !(c == '\n')
  | c1 :: c2 :: rest =>
      if c2 = '\n' then (c1 == '\r') && noBareLF rest
      else !(c1 == '\n') && noBareLF (c2 :: rest)

/-! ### Response status classification (message.go, reply-line accessors) -/

/-- `EndReplyLine.Status`: the part before the first space, parsed as an
integer, with `-1` when it does not parse. -/
def endReplyStatus (l : Line) : Int :=
  match goAtoi? (l.takeWhile (fun c => !(c == ' '))) with
  | some i => i
  | none => -1

/-- `BaseControlResponse.IsSuccess` applied to an already-extracted
status code: false exactly when the status is above 299 and below 600. -/
def isSuccessStatus (status : Int) : Bool :=
  if 299 < status ∧ status < 600 then false else true

/-- `BaseControlResponse.IsSuccess` on a completed response buffer. -/
def responseIsSuccess (b : ResponseBuffer) : Bool :=
  isSuccessStatus (endReplyStatus b.endReplyLine)

/-! ### Controller: authenticator selection, authentication, connect, close -/

/-- The authenticator strategies registered in the source (auth.go). -/
inductive AuthMethod
  | cookie
  | password
  | openAuth
  | safeCookie
deriving DecidableEq

/-- `MethodName` of each authenticator. -/
def methodName : AuthMethod → String
  | .cookie => "COOKIE"
  | .password => "HASHEDPASSWORD"
  | .openAuth => "NULL"
  | .safeCookie => "SAFECOOKIE"

/-- The fixed preference list `authPrefs` built inside `Controller.Connect`. -/
def authPrefs : List AuthMethod := [.cookie, .password, .openAuth]

/-- The selection double loop of `Controller.Connect`: for each strategy in
preference order, if its method name occurs among the advertised methods the
strategy is stored (the source's break leaves only the inner loop, so later
matching preferences overwrite earlier ones). -/
def selectAuthenticator (prefs : List AuthMethod) (methods : List String)
    (init : Option AuthMethod) : Option AuthMethod :=
  prefs.foldl (fun acc i => if methods.contains (methodName i) then some i else acc) init

/-- The `Controller` fields relevant to connect/close/authenticate:
connection handle, response channel, parser binding, flags. -/
structure Controller where
  connection : Option Unit
  isConnected : Bool
  inChanOpen : Bool
  parserRunning : Bool
  password : String
  authenticator : Option AuthMethod
  isAuthenticated : Bool
deriving DecidableEq

/-- A controller as produced by `NewController` (zero values). -/
def initController : Controller := ⟨none, false, false, false, "", none, false⟩

/-- Outcome of the environment interactions an authenticator performs:
whether the cookie file is readable, whether `Controller.Request` returns
a nil error, and whether the reply's status is a success status. -/
structure AuthEnv where
  cookieReadOk : Bool
  requestOk : Bool
  replySuccess : Bool
deriving DecidableEq

/-- Errors an `Authenticate` call can return (nil is `none`). -/
inductive AuthError
  | ioError
  | authFailed
  | notImplemented
deriving DecidableEq

/-- The four `Authenticate` implementations of auth.go as state
transformers over the controller, with the request/response exchange
abstracted by `AuthEnv`.  The cookie and password variants return the
transport error `e` — which is nil when only the reply status failed —
from their combined `e != nil || !response.IsSuccess()` guard. -/
def authenticate (a : AuthMethod) (c : Controller) (env : AuthEnv) :
    Controller × Option AuthError :=
  match a with
  | .openAuth =>
      if !env.requestOk then (c, some .ioError)
      else
        let c1 := { c with isAuthenticated := env.replySuccess }
        if !c1.isAuthenticated then (c1, some .authFailed) else (c1, none)
  | .cookie =>
      if !env.cookieReadOk then (c, some .ioError)
      else if !env.requestOk || !env.replySuccess then
        (c, if !env.requestOk then some .ioError else none)
      else
        let c1 := { c with isAuthenticated := env.replySuccess }
        if !c1.isAuthenticated then (c1, some .authFailed) else (c1, none)
  | .password =>
      if !env.requestOk || !env.replySuccess then
        (c, if !env.requestOk then some .ioError else none)
      else
        let c1 := { c with isAuthenticated := env.replySuccess }
        if !c1.isAuthenticated then (c1, some .authFailed) else (c1, none)
  | .safeCookie => (c, some .notImplemented)

/-- Environment outcomes for a `Connect` attempt. -/
structure ConnectEnv where
  dialOk : Bool
  protoInfoOk : Bool
  authMethods : List String
  auth : AuthEnv
deriving DecidableEq

/-- Errors `Controller.Connect` can return (nil is `none`). -/
inductive ConnectError
  | dialFailed
  | protoInfoFailed
  | noCompatibleMethod
  | authFailed
deriving DecidableEq

/-- `Controller.Connect`: silent no-op when already connected; dial;
on success install the connection, mark connected, create the channel and
start the parser; PROTOCOLINFO discovery; authenticator selection;
authentication.  Early returns leave the state reached so far in place. -/
def connect (c : Controller) (env : ConnectEnv) : Controller × Option ConnectError :=
  if c.isConnected then (c, none)
  else if !env.dialOk then (c, some .dialFailed)
  else
    let c1 : Controller :=
      { c with connection := some (), isConnected := true,
               inChanOpen := true, parserRunning := true }
    if !env.protoInfoOk then (c1, some .protoInfoFailed)
    else
      let c2 : Controller :=
        { c1 with authenticator :=
            selectAuthenticator authPrefs env.authMethods c1.authenticator }
      match c2.authenticator with
      | none => (c2, some .noCompatibleMethod)
      | some a =>
          match authenticate a c2 env.auth with
          | (c3, some _) => (c3, some .authFailed)
          | (c3, none) => (c3, none)

/-- `Controller.Close`: no-op when no connection is held; otherwise close
the transport and channel, clear the handle and both flags. -/
def close (c : Controller) : Controller :=
  if c.connection = none then c
  else { c with connection := none, inChanOpen := false,
                isConnected := false, isAuthenticated := false }

/-- Sample in-progress parser state holding one accumulated mid-reply line. -/
def stWithMid : ParserState :=
  { parserInit with buffer := { emptyBuffer with midReplyLines := ["250-abc".data] } }

/-- Sample in-progress parser state holding two accumulated mid-reply lines. -/
def stWithMids : ParserState :=
  { parserInit with buffer :=
      { emptyBuffer with midReplyLines := ["250-abc".data, "250-def".data] } }

/-- Sample connect environment: dial succeeds, PROTOCOLINFO fails. -/
def envProtoFail : ConnectEnv := ⟨true, false, [], ⟨true, true, true⟩⟩

/-- Sample line buffer with a single CRLF-terminated line. -/
def bufSample : List Line := [['h', 'i', '\r', '\n']]

/-! ## Helper lemmas about the parser -/

theorem endsWithCRLF_append_crlf (l : Line) : endsWithCRLF (l ++ crlf) = true := by
  unfold endsWithCRLF
  rw [show (l ++ crlf).reverse = '\n' :: '\r' :: l.reverse by simp [crlf]]
  simp

theorem trimCRLF_append_crlf (l : Line) : trimCRLF (l ++ crlf) = l := by
  unfold trimCRLF
  rw [show (l ++ crlf).reverse = '\n' :: '\r' :: l.reverse by simp [crlf]]
  simp

theorem rawStep_crlf (st : ParserState) (l : Line) :
    rawStep st (l ++ crlf) = processLine st l := by
  simp [rawStep, endsWithCRLF_append_crlf, trimCRLF_append_crlf]

theorem mid_not_end (m : Line) (h : isMidReplyLine m = true) :
    isEndReplyLine m = false := by
  simp only [isMidReplyLine, Bool.and_eq_true, decide_eq_true_eq] at h
  simp [isEndReplyLine, h.2]

theorem data_not_end (d : Line) (h : isDataReplyLine d = true) :
    isEndReplyLine d = false := by
  simp only [isDataReplyLine, Bool.and_eq_true, decide_eq_true_eq] at h
  simp [isEndReplyLine, h.2]

theorem data_not_mid (d : Line) (h : isDataReplyLine d = true) :
    isMidReplyLine d = false := by
  simp only [isDataReplyLine, Bool.and_eq_true, decide_eq_true_eq] at h
  simp [isMidReplyLine, h.2]

theorem not_reply_of_atoi_none (l : Line) (h : goAtoi? (l.take 3) = none) :
    isReplyLine l = false := by
  simp [isReplyLine, h]

theorem not_reply_of_short (l : Line) (h : l.length < 5) :
    isReplyLine l = false := by
  have h5 : ¬ (5 ≤ l.length) := by omega
  simp [isReplyLine, h5]

theorem classifiers_false_of_not_reply (l : Line) (h : isReplyLine l = false) :
    isEndReplyLine l = false ∧ isMidReplyLine l = false ∧ isDataReplyLine l = false := by
  simp [isEndReplyLine, isMidReplyLine, isDataReplyLine, h]

theorem processLine_end (bm : List Line) (bd : List (List Line)) (be : Line)
    (dl br : List Line) (ml : Bool) (e : Line) (he : isEndReplyLine e = true) :
    processLine ⟨⟨bm, bd, be⟩, dl, br, true, ml⟩ e =
      (⟨⟨[], [], []⟩, dl, [], true, false⟩, some ⟨bm, bd, e⟩) := by
  simp [processLine, resetS, emptyBuffer, he]

theorem processLine_mid (bm : List Line) (bd : List (List Line)) (be : Line)
    (dl br : List Line) (ml : Bool) (m : Line) (hm : isMidReplyLine m = true) :
    processLine ⟨⟨bm, bd, be⟩, dl, br, true, ml⟩ m =
      (⟨⟨bm ++ [m], bd, be⟩, dl, br ++ [m], true, ml⟩, none) := by
  simp [processLine, hm, mid_not_end m hm]

theorem processLine_data (bm : List Line) (bd : List (List Line)) (be : Line)
    (dl br : List Line) (ml : Bool) (d : Line) (hd : isDataReplyLine d = true) :
    processLine ⟨⟨bm, bd, be⟩, dl, br, true, ml⟩ d =
      (⟨⟨bm, bd, be⟩, [d], br ++ [d], false, true⟩, none) := by
  simp [processLine, hd, data_not_end d hd, data_not_mid d hd]

theorem processLine_reset (bm : List Line) (bd : List (List Line)) (be : Line)
    (dl br : List Line) (ml : Bool) (l : Line) (hl : isReplyLine l = false) :
    processLine ⟨⟨bm, bd, be⟩, dl, br, true, ml⟩ l =
      (⟨⟨[], [], []⟩, dl, [], true, false⟩, none) := by
  obtain ⟨h1, h2, h3⟩ := classifiers_false_of_not_reply l hl
  simp [processLine, resetS, emptyBuffer, h1, h2, h3]

theorem processLine_body (bm : List Line) (bd : List (List Line)) (be : Line)
    (dl br : List Line) (l : Line) (hl : isEndOfData l = false) :
    processLine ⟨⟨bm, bd, be⟩, dl, br, false, true⟩ l =
      (⟨⟨bm, bd, be⟩, dl ++ [l], br ++ [l], false, true⟩, none) := by
  simp [processLine, hl]

theorem processLine_closeData (bm : List Line) (bd : List (List Line)) (be : Line)
    (dl br : List Line) (l : Line) (hl : isEndOfData l = true) :
    processLine ⟨⟨bm, bd, be⟩, dl, br, false, true⟩ l =
      (⟨⟨bm, bd ++ [dl], be⟩, dl, br ++ [l], true, false⟩, none) := by
  simp [processLine, hl]

theorem runParser_append : ∀ (a b : List Line) (st : ParserState),
    runParser st (a ++ b) =
      ((runParser (runParser st a).1 b).1,
       (runParser st a).2 ++ (runParser (runParser st a).1 b).2)
  | [], b, st => by simp [runParser]
  | r :: rest, b, st => by
      simp only [List.cons_append, runParser, List.append_eq]
      rw [runParser_append rest b (rawStep st r).1]
      simp [List.append_assoc]

theorem runParser_mids (mids : List Line) :
    ∀ (bm : List Line) (bd : List (List Line)) (be : Line)
      (dl br : List Line) (ml : Bool),
    (∀ m ∈ mids, isMidReplyLine m = true) →
    runParser ⟨⟨bm, bd, be⟩, dl, br, true, ml⟩ (mids.map (· ++ crlf)) =
      (⟨⟨bm ++ mids, bd, be⟩, dl, br ++ mids, true, ml⟩, []) := by
  induction mids with
  | nil => intro bm bd be dl br ml _; simp [runParser]
  | cons m ms ih =>
      intro bm bd be dl br ml hall
      have hm : isMidReplyLine m = true := hall m (by simp)
      simp only [List.map_cons, runParser, rawStep_crlf,
        processLine_mid bm bd be dl br ml m hm]
      rw [ih (bm ++ [m]) bd be dl (br ++ [m]) ml (fun x hx => hall x (by simp [hx]))]
      simp [List.append_assoc]

theorem runParser_body (body : List Line) :
    ∀ (bm : List Line) (bd : List (List Line)) (be : Line)
      (dl br : List Line),
    (∀ b ∈ body, isEndOfData b = false) →
    runParser ⟨⟨bm, bd, be⟩, dl, br, false, true⟩ (body.map (· ++ crlf)) =
      (⟨⟨bm, bd, be⟩, dl ++ body, br ++ body, false, true⟩, []) := by
  induction body with
  | nil => intro bm bd be dl br _; simp [runParser]
  | cons b bs ih =>
      intro bm bd be dl br hall
      have hb : isEndOfData b = false := hall b (by simp)
      simp only [List.map_cons, runParser, rawStep_crlf,
        processLine_body bm bd be dl br b hb]
      rw [ih bm bd be (dl ++ [b]) (br ++ [b]) (fun x hx => hall x (by simp [hx]))]
      simp [List.append_assoc]

/-! ## Claims about the parser -/

/-- C7: every well-formed input of zero or more mid-reply lines followed by one
end-reply line makes the parser emit exactly one buffer whose mid-reply
sequence is the input in order and whose end-reply line is the terminator;
nothing is emitted before the end-reply line arrives. -/
theorem c7_mid_end (mids : List Line) (e : Line)
    (hm : ∀ m ∈ mids, isMidReplyLine m = true) (he : isEndReplyLine e = true) :
    (runParser parserInit ((mids ++ [e]).map (· ++ crlf))).2 =
      [{ midReplyLines := mids, dataReplyLines := [], endReplyLine := e }] ∧
    (runParser parserInit (mids.map (· ++ crlf))).2 = [] := by
  have hmids := runParser_mids mids [] [] [] [] [] false hm
  constructor
  · rw [List.map_append, runParser_append]
    show (_ , (runParser parserInit (mids.map (· ++ crlf))).2 ++ _).2 = _
    simp only [parserInit, emptyBuffer] at hmids ⊢
    rw [hmids]
    simp only [List.map_cons, List.map_nil, runParser, rawStep_crlf]
    rw [processLine_end ([] ++ mids) [] [] [] ([] ++ mids) false e he]
    simp
  · simp only [parserInit, emptyBuffer] at hmids ⊢
    rw [hmids]

/-- C7 witness: one mid-reply line and an end-reply line. -/
theorem c7_witness :
    (runParser parserInit ((["250-abc".data] ++ ["250 OK".data]).map (· ++ crlf))).2 =
      [{ midReplyLines := ["250-abc".data], dataReplyLines := [],
         endReplyLine := "250 OK".data }] ∧
    (runParser parserInit (["250-abc".data].map (· ++ crlf))).2 = [] :=
  c7_mid_end ["250-abc".data] "250 OK".data (by decide) (by decide)

/-- C6: a data-reply line, then N body lines none of which is the lone dot,
then the dot terminator, then an end-reply line, makes the parser emit one
buffer with a single data block holding the data-reply line followed by
exactly the N body lines, the dot excluded. -/
theorem c6_data_block (d : Line) (body : List Line) (e : Line)
    (hd : isDataReplyLine d = true) (he : isEndReplyLine e = true)
    (hb : ∀ b ∈ body, isEndOfData b = false) :
    (runParser parserInit ((d :: (body ++ [['.'], e])).map (· ++ crlf))).2 =
      [{ midReplyLines := [], dataReplyLines := [d :: body], endReplyLine := e }] := by
  simp only [parserInit, emptyBuffer, List.map_cons, runParser, rawStep_crlf]
  rw [processLine_data [] [] [] [] [] false d hd]
  rw [List.map_append, runParser_append]
  rw [runParser_body body [] [] [] [d] ([] ++ [d]) hb]
  simp only [List.map_cons, List.map_nil, runParser, rawStep_crlf]
  rw [processLine_closeData [] [] [] ([d] ++ body) (([] ++ [d]) ++ body) ['.'] (by decide)]
  rw [processLine_end [] ([] ++ [[d] ++ body]) [] ([d] ++ body) _ false e he]
  simp

/-- C6 witness: a two-line data block. -/
theorem c6_witness :
    (runParser parserInit
        (("250+i=".data :: (["foo".data, "bar".data] ++ [['.'], "250 OK".data])).map
          (· ++ crlf))).2 =
      [{ midReplyLines := [],
         dataReplyLines := ["250+i=".data :: ["foo".data, "bar".data]],
         endReplyLine := "250 OK".data }] :=
  c6_data_block "250+i=".data ["foo".data, "bar".data] "250 OK".data
    (by decide) (by decide) (by decide)

/-- C2 counterexample: after accumulating a mid-reply line, the malformed
line XYZ OK (non-numeric status) does not leave the in-progress buffer
unchanged — the accumulated mid-reply line is discarded. -/
theorem c2_counterexample :
    (runParser parserInit
        [("250-abc".data ++ crlf), ("XYZ OK".data ++ crlf)]).1.buffer.midReplyLines = [] ∧
    (runParser parserInit
        [("250-abc".data ++ crlf)]).1.buffer.midReplyLines = ["250-abc".data] := by
  decide

/-- C2 amended: in READY state a line whose first 3 characters do not parse
as an integer is dropped and the entire in-progress buffer is reset (the
state machine stays READY); a following well-formed end-reply line then
yields a correct, fresh buffer, so the parser loop is not terminated. -/
theorem c2_bad_status_resets (st : ParserState) (l e : Line)
    (h1 : st.isReady = true) (h2 : goAtoi? (l.take 3) = none)
    (h3 : isEndReplyLine e = true) :
    runParser st [l ++ crlf, e ++ crlf] =
      (resetS st, [{ midReplyLines := [], dataReplyLines := [], endReplyLine := e }]) := by
  obtain ⟨⟨bm, bd, be⟩, dl, br, ir, ml⟩ := st
  have h' : ir = true := h1
  subst h'
  have hl : isReplyLine l = false := not_reply_of_atoi_none l h2
  simp only [runParser, rawStep_crlf]
  rw [processLine_reset bm bd be dl br ml l hl]
  rw [processLine_end [] [] [] dl [] false e h3]
  simp [resetS, emptyBuffer]

/-- C2 amended witness: state with one accumulated mid-reply line, the
malformed line XYZ OK, then 250 OK. -/
theorem c2_witness :
    runParser stWithMid ["XYZ OK".data ++ crlf, "250 OK".data ++ crlf] =
      (resetS stWithMid,
       [{ midReplyLines := [], dataReplyLines := [], endReplyLine := "250 OK".data }]) :=
  c2_bad_status_resets stWithMid "XYZ OK".data "250 OK".data
    (by decide) (by decide) (by decide)

/-- C10: a line shorter than 5 characters is never classified as an end-,
mid- or data-reply line, and in READY state such a line (for example the
4-character line with a valid status code and separator but empty payload)
resets the entire in-progress buffer instead of completing or extending
the message. -/
theorem c10_short_line_reset (l : Line) (st : ParserState)
    (h : l.length < 5) (hr : st.isReady = true) :
    (isEndReplyLine l = false ∧ isMidReplyLine l = false ∧ isDataReplyLine l = false) ∧
    processLine st l = (resetS st, none) := by
  have hl : isReplyLine l = false := not_reply_of_short l h
  refine ⟨classifiers_false_of_not_reply l hl, ?_⟩
  obtain ⟨⟨bm, bd, be⟩, dl, br, ir, ml⟩ := st
  have h' : ir = true := hr
  subst h'
  rw [processLine_reset bm bd be dl br ml l hl]
  simp [resetS, emptyBuffer]

/-- C10 witness: the 4-character line with status 250 and a space separator,
against a state holding two accumulated mid-reply lines. -/
theorem c10_witness :
    (isEndReplyLine ("250 ".data) = false ∧ isMidReplyLine ("250 ".data) = false ∧
      isDataReplyLine ("250 ".data) = false) ∧
    processLine stWithMids ("250 ".data) = (resetS stWithMids, none) :=
  c10_short_line_reset ("250 ".data) stWithMids (by decide) (by decide)

/-! ## Normalization lemmas -/

theorem noBareLF_head_lf (xs : Line) : noBareLF ('\n' :: xs) = false := by
  cases xs with
  | nil => simp [noBareLF]
  | cons x xs' => by_cases hx : x = '\n' <;> simp [noBareLF, hx]

theorem replRoundtrip : ∀ (v : Line), noBareLF v = true →
    replLFtoCRLF (replCRLFtoLF v) = v
  | [], _ => rfl
  | [c], h => by
      have hc : ¬ c = '\n' := by simpa [noBareLF] using h
      simp [replCRLFtoLF, replLFtoCRLF, hc]
  | c1 :: c2 :: rest, h => by
      by_cases h12 : c1 = '\r' ∧ c2 = '\n'
      · obtain ⟨e1, e2⟩ := h12
        subst e1; subst e2
        have hr : noBareLF rest = true := by simpa [noBareLF] using h
        simp [replCRLFtoLF, replLFtoCRLF, replRoundtrip rest hr]
      · by_cases h2 : c2 = '\n'
        · subst h2
          exfalso
          simp only [noBareLF, if_pos rfl, eq_self_iff_true, if_true,
            Bool.and_eq_true, beq_iff_eq] at h
          exact h12 ⟨h.1, rfl⟩
        · have hh : (¬ c1 = '\n') ∧ noBareLF (c2 :: rest) = true := by
            simpa [noBareLF, h2] using h
          simp [replCRLFtoLF, h12, replLFtoCRLF, hh.1,
            replRoundtrip (c2 :: rest) hh.2]

theorem noBareLF_append : ∀ (a b : Line),
    noBareLF a = true → noBareLF b = true → noBareLF (a ++ b) = true
  | [], b, _, hb => hb
  | [c], b, ha, hb => by
      cases b with
      | nil => simpa using ha
      | cons b1 bs =>
          have hc : ¬ c = '\n' := by simpa [noBareLF] using ha
          have hb1 : ¬ b1 = '\n' := by
            intro e; subst e
            rw [noBareLF_head_lf bs] at hb
            exact Bool.false_ne_true hb
          simpa [noBareLF, hb1, hc] using hb
  | a1 :: a2 :: rest, b, ha, hb => by
      by_cases h2 : a2 = '\n'
      · subst h2
        have hh : (a1 == '\r') = true ∧ noBareLF rest = true := by
          simpa [noBareLF] using ha
        have ih := noBareLF_append rest b hh.2 hb
        simpa [noBareLF, hh.1] using ih
      · have hh : (¬ a1 = '\n') ∧ noBareLF (a2 :: rest) = true := by
          simpa [noBareLF, h2] using ha
        have ih := noBareLF_append (a2 :: rest) b hh.2 hb
        simpa [noBareLF, h2, hh.1] using ih

theorem noBareLF_flatten : ∀ (b : List Line),
    (∀ v ∈ b, noBareLF v = true) → noBareLF b.flatten = true
  | [], _ => rfl
  | v :: rest, h => by
      simp only [List.flatten_cons]
      exact noBareLF_append v rest.flatten (h v (by simp))
        (noBareLF_flatten rest (fun x hx => h x (by simp [hx])))

theorem endsWithCRLF_append_right (x y : Line) (h : endsWithCRLF y = true) :
    endsWithCRLF (x ++ y) = true := by
  unfold endsWithCRLF at *
  rw [List.reverse_append]
  rcases hy : y.reverse with _ | ⟨c1, t1⟩
  · rw [hy] at h; simp at h
  · rcases t1 with _ | ⟨c2, t2⟩
    · rw [hy] at h; simp at h
    · rw [hy] at h
      simpa using h

theorem endsWithCRLF_flatten : ∀ (b : List Line), b ≠ [] →
    (∀ v ∈ b, endsWithCRLF v = true) → endsWithCRLF b.flatten = true
  | [], hne, _ => absurd rfl hne
  | v :: rest, _, h => by
      simp only [List.flatten_cons]
      cases rest with
      | nil => simpa using h v (by simp)
      | cons w ws =>
          exact endsWithCRLF_append_right v _
            (endsWithCRLF_flatten (w :: ws) (by simp)
              (fun x hx => h x (by simp [hx])))

theorem normalizeLine_fixed (v : Line)
    (h1 : noBareLF v = true) (h2 : endsWithCRLF v = true) :
    normalizeLine v = v := by
  simp [normalizeLine, replRoundtrip v h1, h2]

theorem normalizeBuffer_eq_flatten (b : List Line)
    (h : ∀ v ∈ b, noBareLF v = true ∧ endsWithCRLF v = true) :
    normalizeBuffer b = b.flatten := by
  unfold normalizeBuffer
  induction b with
  | nil => rfl
  | cons v rest ih =>
      simp only [List.map_cons, List.flatten_cons]
      rw [normalizeLine_fixed v (h v (by simp)).1 (h v (by simp)).2]
      rw [ih (fun x hx => h x (by simp [hx]))]

/-! ## Remaining claims -/

/-- C8: normalizing a buffer whose lines are CRLF-terminated and free of
bare newlines is the identity (the output is the concatenation of the
input), and normalizing that output again reproduces the same bytes. -/
theorem c8_normalize_idempotent (b : List Line)
    (h : ∀ v ∈ b, noBareLF v = true ∧ endsWithCRLF v = true) :
    normalizeBuffer b = b.flatten ∧
    (b ≠ [] → normalizeBuffer [b.flatten] = b.flatten) := by
  refine ⟨normalizeBuffer_eq_flatten b h, fun hne => ?_⟩
  have h1 := noBareLF_flatten b (fun v hv => (h v hv).1)
  have h2 := endsWithCRLF_flatten b hne (fun v hv => (h v hv).2)
  simp [normalizeBuffer, normalizeLine_fixed b.flatten h1 h2]

/-- C8 witness: a single CRLF-terminated line. -/
theorem c8_witness :
    normalizeBuffer bufSample = bufSample.flatten ∧
    normalizeBuffer [bufSample.flatten] = bufSample.flatten :=
  ⟨(c8_normalize_idempotent bufSample (by decide)).1,
   (c8_normalize_idempotent bufSample (by decide)).2 (by decide)⟩

/-- C5: the response status classification is unsuccessful exactly for
statuses from 300 through 599; anything else, including the sentinel -1
produced when the end-reply line's status text does not parse as an
integer, counts as success. -/
theorem c5_success_classification :
    (∀ s : Int, isSuccessStatus s = false ↔ (300 ≤ s ∧ s ≤ 599)) ∧
    endReplyStatus ("XYZ OK".data) = -1 ∧
    responseIsSuccess { midReplyLines := [], dataReplyLines := [],
                        endReplyLine := "XYZ OK".data } = true := by
  refine ⟨fun s => ?_, by decide, by decide⟩
  by_cases h : 299 < s ∧ s < 600
  · constructor
    · intro _; omega
    · intro _; simp [isSuccessStatus, h]
  · constructor
    · intro ht; exfalso; simp [isSuccessStatus, h] at ht
    · intro hs; exact absurd (by omega : 299 < s ∧ s < 600) h

/-- C5 witness: status 500 is a failure, status 250 and the sentinel are
successes. -/
theorem c5_witness :
    isSuccessStatus 500 = false ∧ isSuccessStatus 250 = true ∧
    isSuccessStatus (-1) = true :=
  ⟨(c5_success_classification.1 500).mpr (by omega),
   by decide, c5_success_classification.2.2⟩

/-- C9: `Close` is idempotent — with no connection held it is the identity,
and a second consecutive `Close` changes nothing after the first one tore
the connection down. -/
theorem c9_close_idempotent (c : Controller) :
    close (close c) = close c ∧ (c.connection = none → close c = c) := by
  constructor
  · by_cases h : c.connection = none
    · simp [close, h]
    · simp [close, h]
  · intro h; simp [close, h]

/-- C9 witness: a freshly created controller. -/
theorem c9_witness :
    close (close initController) = close initController ∧
    close initController = initController :=
  ⟨(c9_close_idempotent initController).1,
   (c9_close_idempotent initController).2 rfl⟩

/-- C1 evaluation at the failing input: with advertised methods
HASHEDPASSWORD and NULL, the selection loop of `Connect` stores the open
(NULL) authenticator — the last preference whose method is advertised —
not the password authenticator the preference order puts first. -/
theorem c1_selection_last_match :
    selectAuthenticator authPrefs ["HASHEDPASSWORD", "NULL"] none =
      some AuthMethod.openAuth ∧
    AuthMethod.openAuth ≠ AuthMethod.password := by
  decide

/-- C4 evaluation at the failing input: with the cookie file readable, the
transport request succeeding, and the reply carrying a non-success status,
both the cookie and the password authenticators return a nil error and
leave the controller unauthenticated. -/
theorem c4_nil_error_on_failed_reply :
    authenticate AuthMethod.cookie initController ⟨true, true, false⟩ =
      (initController, none) ∧
    authenticate AuthMethod.password initController ⟨true, true, false⟩ =
      (initController, none) ∧
    initController.isAuthenticated = false := by
  decide

/-- C3 counterexample: when the dial succeeds and PROTOCOLINFO discovery
fails, `Connect` returns an error yet leaves the connected flag true. -/
theorem c3_counterexample :
    (connect initController envProtoFail).2 = some ConnectError.protoInfoFailed ∧
    (connect initController envProtoFail).1.isConnected = true := by
  decide

/-- C3 amended: if `Connect` on a fresh controller fails at any stage after
dialing, it returns an error but leaves the session flagged connected with
the transport handle still installed; only the authenticated flag remains
false. No cleanup of the partial state is performed. -/
theorem c3_error_leaves_connected (c : Controller) (env : ConnectEnv)
    (hc : c.isConnected = false) (ha : c.isAuthenticated = false)
    (hd : env.dialOk = true) (hf : (connect c env).2 ≠ none) :
    (connect c env).1.isConnected = true ∧
    (connect c env).1.connection = some () ∧
    (connect c env).1.isAuthenticated = false := by
  obtain ⟨conn, ic, ch, pr, pw, au, ia⟩ := c
  obtain ⟨dOk, pOk, ms, ⟨cr, rq, rs⟩⟩ := env
  have hic : ic = false := hc
  have hia : ia = false := ha
  have hdo : dOk = true := hd
  subst hic; subst hia; subst hdo
  cases pOk with
  | false => simp [connect]
  | true =>
      rcases hsel : selectAuthenticator authPrefs ms au with _ | a
      · simp [connect, hsel]
      · cases a <;> cases cr <;> cases rq <;> cases rs <;>
          simp_all [connect, authenticate]

/-- C3 amended witness: fresh controller, dial succeeds, PROTOCOLINFO fails. -/
theorem c3_amended_witness :
    (connect initController envProtoFail).1.isConnected = true ∧
    (connect initController envProtoFail).1.connection = some () ∧
    (connect initController envProtoFail).1.isAuthenticated = false :=
  c3_error_leaves_connected initController envProtoFail rfl rfl rfl (by decide)

end Torc
